import Mathlib

/-!
Verification development for the gold/silver price tracker bot
(`gold_price_tracker/bot.py`).  The definitions below are a shallow
embedding of the pure core of that file: the display-width calculator,
the table renderer, the price-cell parser, the HTML price extractor,
the price cache, the fetch orchestrator `get_metal_prices`, and the
per-group alert evaluation of `job_check_alerts`.

Modelling conventions:
  * Python floats for prices/thresholds are modelled as `ℚ`;
    `time.time()` timestamps are modelled as `Int` seconds.
  * Python exceptions raised to the caller are modelled with `Except`;
    recovered exceptions are ordinary return values.
  * Python list indexing that is guarded by a length check in the
    source is totalised with `List.getD`; under the source's guards the
    default is never read.
-/

/-- Models Python `str.lower()` (character-wise lower-casing; every
identifier this program lower-cases is ASCII). -/
def pyLower (s : String) : String :=
  ⟨s.data.map Char.toLower⟩

/-- Set of Unicode code points rendered two columns wide.  Transcribes the
range table in `_display_len` (bot.py lines 263-278). -/
def isWideCp (cp : Nat) : Bool :=
  (0x1100 ≤ cp && cp ≤ 0x115F)
  || (0x2E80 ≤ cp && cp ≤ 0x303E)
  || (0x3040 ≤ cp && cp ≤ 0x33FF)
  || (0x3400 ≤ cp && cp ≤ 0x4DBF)
  || (0x4E00 ≤ cp && cp ≤ 0xA4CF)
  || (0xAC00 ≤ cp && cp ≤ 0xD7AF)
  || (0xF900 ≤ cp && cp ≤ 0xFAFF)
  || (0xFE10 ≤ cp && cp ≤ 0xFE1F)
  || (0xFE30 ≤ cp && cp ≤ 0xFE4F)
  || (0xFF00 ≤ cp && cp ≤ 0xFF60)
  || (0xFFE0 ≤ cp && cp ≤ 0xFFE6)
  || (0x1F300 ≤ cp && cp ≤ 0x1FAFF)
  || (0x20000 ≤ cp && cp ≤ 0x2A6DF)

/-- Contribution of one character to the visual width: 2 if its code point
lies in one of the wide ranges, else 1. -/
def charWidth (c : Char) : Nat :=
  if isWideCp c.toNat then 2 else 1

/-- `_display_len` (bot.py 259-282): visual display width of a string,
accumulated character by character. -/
def _display_len (s : String) : Nat :=
  s.data.foldl (fun w c => w + charWidth c) 0

/-- A string of `n` copies of character `c`; models Python `c * n`. -/
def strRepl (c : Char) (n : Nat) : String :=
  ⟨List.replicate n c⟩

/-- `_pad_right` (bot.py 285-286): pad on the right with spaces up to display
width `width` (Python `max(0, width - len)` is `Nat` subtraction). -/
def _pad_right (s : String) (width : Nat) : String :=
  s ++ strRepl ' ' (width - _display_len s)

/-- `_pad_center` (bot.py 289-292): center-pad with spaces, extra space going
to the right. -/
def _pad_center (s : String) (width : Nat) : String :=
  strRepl ' ' ((width - _display_len s) / 2) ++ s
    ++ strRepl ' ' ((width - _display_len s) - (width - _display_len s) / 2)

/-- Models Python `sep.join(xs)`. -/
def joinSep (sep : String) : List String → String
  | [] => ""
  | [x] => x
  | x :: y :: ys => x ++ sep ++ joinSep sep (y :: ys)

/-- Models `change.startswith("−") or change.startswith("-")`
(bot.py 304): the cell text begins with a Unicode minus or ASCII hyphen. -/
def startsMinus (s : String) : Bool :=
  List.isPrefixOf ("−".data) s.data || List.isPrefixOf ("-".data) s.data

/-- The directional glyph chosen for a change cell (bot.py 305). -/
def changeGlyph (s : String) : String :=
  if startsMinus s then "🔴" else "🟢"

/-- The glyph-injection step of `_build_table_str` (bot.py 300-305): when the
row has a cell at index 3 its text is replaced by glyph-space-text; shorter
rows are left untouched. -/
def injectChangeRow (row : List String) : List String :=
  if 3 < row.length then
    row.set 3 (changeGlyph (row.getD 3 "") ++ " " ++ row.getD 3 "")
  else row

/-- Glyph injection applied to every row (the `for row in rows` loop). -/
def injectAll (rows : List (List String)) : List (List String) :=
  rows.map injectChangeRow

/-- Width of one column (bot.py 308-311):
`max(_display_len(headers[i]), max(_display_len(row[i]) for row in rows))`,
with the inner `max` totalised as a fold from 0 (equal to Python's `max`
whenever `rows` is non-empty, since widths are naturals). -/
def colWidth (headers : List String) (rows : List (List String)) (i : Nat) : Nat :=
  max (_display_len (headers.getD i ""))
    ((rows.map (fun row => _display_len (row.getD i ""))).foldl max 0)

/-- The `column_widths` list of `_build_table_str`, computed after glyph
injection. -/
def tableColumnWidths (headers : List String) (rows : List (List String)) : List Nat :=
  (List.range headers.length).map (colWidth headers (injectAll rows))

/-- The separator line (bot.py 313). -/
def tableSeparator (headers : List String) (rows : List (List String)) : String :=
  joinSep "-+-" ((tableColumnWidths headers rows).map (fun w => strRepl '-' w))

/-- The header line (bot.py 314). -/
def tableHeaderRow (headers : List String) (rows : List (List String)) : String :=
  joinSep " | " ((List.range headers.length).map
    (fun i => _pad_center (headers.getD i "") ((tableColumnWidths headers rows).getD i 0)))

/-- One rendered data line (bot.py 317-318); `r` is a glyph-injected row. -/
def tableDataRow (headers : List String) (rows : List (List String)) (r : List String) : String :=
  joinSep " | " ((List.range headers.length).map
    (fun i => _pad_right (r.getD i "") ((tableColumnWidths headers rows).getD i 0)))

/-- The `lines` list of `_build_table_str`: header, separator, then one line
per (injected) data row. -/
def _build_table_lines (headers : List String) (rows : List (List String)) : List String :=
  tableHeaderRow headers rows :: tableSeparator headers rows
    :: (injectAll rows).map (tableDataRow headers rows)

/-- `_build_table_str` (bot.py 295-320): the aligned monospace table. -/
def _build_table_str (headers : List String) (rows : List (List String)) : String :=
  joinSep "\n" (_build_table_lines headers rows)

/-- The common display width every rendered line must have: the sum of the
column widths plus 3 columns for each `" | "` / `"-+-"` separator. -/
def tableTotalWidth (headers : List String) (rows : List (List String)) : Nat :=
  (tableColumnWidths headers rows).sum + 3 * (headers.length - 1)

/-! ### Price-cell parser -/

/-- Numeric value of a digit string (most significant digit first). -/
def digitsToNat (cs : List Char) : Nat :=
  cs.foldl (fun n c => 10 * n + (c.toNat - 48)) 0

/-- Modelled from Python's built-in `float` on a finite decimal literal:
optional integer part, optional fractional part after a dot; at least one
digit overall and no other characters.  (The `inf` / `nan` words and digit
underscores accepted by CPython are outside the model; no price cell uses
them.) -/
def parseMantissa (cs : List Char) : Option ℚ :=
  let ip := cs.takeWhile Char.isDigit
  let r1 := cs.dropWhile Char.isDigit
  match r1 with
  | [] => if ip.isEmpty then none else some ((digitsToNat ip : ℚ))
  | '.' :: r2 =>
    let fp := r2.takeWhile Char.isDigit
    let r3 := r2.dropWhile Char.isDigit
    if r3.isEmpty then
      if ip.isEmpty && fp.isEmpty then none
      else some ((digitsToNat ip : ℚ) + (digitsToNat fp : ℚ) / ((10 : ℚ) ^ fp.length))
    else none
  | _ => none

/-- A non-empty all-digit run, else `none`. -/
def digitRun? (cs : List Char) : Option Nat :=
  if cs.isEmpty || !(cs.all Char.isDigit) then none else some (digitsToNat cs)

/-- Signed decimal integer (exponent part of a float literal). -/
def parseSignedInt (cs : List Char) : Option Int :=
  match cs with
  | '+' :: t => (digitRun? t).map (fun n => (n : Int))
  | '-' :: t => (digitRun? t).map (fun n => -(n : Int))
  | t => (digitRun? t).map (fun n => (n : Int))

/-- Ten to an integer power, as a rational. -/
def pow10 (e : Int) : ℚ :=
  if 0 ≤ e then ((10 : ℚ) ^ e.toNat) else 1 / ((10 : ℚ) ^ (-e).toNat)

/-- Split a float literal at the first `e`/`E` into mantissa and exponent. -/
def splitExp (cs : List Char) : List Char × Option (List Char) :=
  let m := cs.takeWhile (fun c => !(c == 'e' || c == 'E'))
  match cs.dropWhile (fun c => !(c == 'e' || c == 'E')) with
  | [] => (m, none)
  | _ :: t => (m, some t)

/-- Unsigned float literal: mantissa with optional exponent. -/
def pyFloatNoSign (cs : List Char) : Option ℚ :=
  match splitExp cs with
  | (m, none) => parseMantissa m
  | (m, some e) =>
    match parseMantissa m, parseSignedInt e with
    | some q, some ex => some (q * pow10 ex)
    | _, _ => none

/-- Modelled from Python `float(token)` restricted to finite decimal
literals, returning `none` where CPython raises `ValueError`. -/
def pyFloat? (s : String) : Option ℚ :=
  match s.data with
  | '+' :: t => pyFloatNoSign t
  | '-' :: t => (pyFloatNoSign t).map (fun q => -q)
  | t => pyFloatNoSign t

/-- Remove every occurrence of character `c`; models Python
`s.replace(c, "")` for a one-character pattern. -/
def removeAllChar (c : Char) (s : String) : String :=
  ⟨s.data.filter (fun x => !(x == c))⟩

/-- Models Python `s.strip()`: drop whitespace from both ends. -/
def pyStrip (s : String) : String :=
  ⟨((s.data.dropWhile Char.isWhitespace).reverse.dropWhile Char.isWhitespace).reverse⟩

/-- First maximal whitespace-free run; models
`cleaned.split()[0] if cleaned.split() else ""` (bot.py 252). -/
def firstTokenChars (cs : List Char) : List Char :=
  (cs.dropWhile Char.isWhitespace).takeWhile (fun c => !c.isWhitespace)

/-- `_parse_price_from_cell` (bot.py 245-256): strip the rupee glyph and
thousands separators, take the first whitespace-delimited token, and try a
numeric parse; `none` models the caught `ValueError`. -/
def _parse_price_from_cell (text : String) : Option ℚ :=
  let cleaned := pyStrip (removeAllChar ',' (removeAllChar '₹' text))
  pyFloat? ⟨firstTokenChars cleaned.data⟩

/-! ### Static metal / city tables -/

/-- Per-metal metadata (the `METALS` dict values, bot.py 55-68). -/
structure MetalSpec where
  url_slug : String
  label : String
  emoji : String
  section_keyword : String
deriving DecidableEq

/-- The `"gold"` entry of `METALS`. -/
def goldSpec : MetalSpec :=
  ⟨"gold-rates", "Gold", "🥇", "Gold Price"⟩

/-- The `"silver"` entry of `METALS`. -/
def silverSpec : MetalSpec :=
  ⟨"silver-rates", "Silver", "🥈", "Silver Price"⟩

/-- The `METALS` dict (bot.py 55-68), as an ordered association list. -/
def METALS : List (String × MetalSpec) :=
  [("gold", goldSpec), ("silver", silverSpec)]

/-- The `CITIES` dict (bot.py 71-82). -/
def CITIES : List (String × String) :=
  [("bangalore", "Bangalore"), ("mumbai", "Mumbai"), ("delhi", "Delhi"),
   ("chennai", "Chennai"), ("hyderabad", "Hyderabad"), ("kolkata", "Kolkata"),
   ("pune", "Pune"), ("ahmedabad", "Ahmedabad"), ("jaipur", "Jaipur"),
   ("surat", "Surat")]

/-- `METALS[metal]` lookup; `none` models `metal not in METALS`. -/
def metalSpec? (metal : String) : Option MetalSpec :=
  (METALS.find? (fun p => p.1 == metal)).map (fun p => p.2)

/-- `CITIES[city]` lookup; `none` models `city not in CITIES`. -/
def cityName? (city : String) : Option String :=
  (CITIES.find? (fun p => p.1 == city)).map (fun p => p.2)

/-! ### Price cache -/

/-- `CACHE_TTL = 30 * 60` seconds (bot.py 50). -/
def CACHE_TTL : Int := 30 * 60

/-- One `_price_cache` entry: `{"data": message, "timestamp": t, "price": p}`
(bot.py 234-239). -/
structure CacheEntry where
  data : String
  timestamp : Int
  price : ℚ
deriving DecidableEq

/-- The `_price_cache` dict, modelled as an association list on the
lower-cased `(metal, city)` key. -/
abbrev Cache := List ((String × String) × CacheEntry)

/-- `_cache_key` (bot.py 223-224). -/
def _cache_key (metal city : String) : String × String :=
  (pyLower metal, pyLower city)

/-- Raw dictionary lookup `_price_cache.get(key)`, with no TTL check. -/
def cacheFind (cache : Cache) (key : String × String) : Option CacheEntry :=
  (cache.find? (fun p => p.1 == key)).map (fun p => p.2)

/-- `_get_cached` (bot.py 227-231): the entry is returned only while
`now - timestamp < CACHE_TTL`; an expired entry is treated as absent but is
not removed from the dictionary. -/
def _get_cached (now : Int) (cache : Cache) (metal city : String) : Option CacheEntry :=
  match cacheFind cache (_cache_key metal city) with
  | some entry => if now - entry.timestamp < CACHE_TTL then some entry else none
  | none => none

/-- `_set_cache` (bot.py 234-239): unconditional overwrite of the key,
stamped with the current time. -/
def _set_cache (now : Int) (cache : Cache) (metal city message : String) (price : ℚ) : Cache :=
  (cache.filter (fun p => !(p.1 == _cache_key metal city)))
    ++ [(_cache_key metal city, ⟨message, now, price⟩)]

/-! ### HTML price extractor

The fetched page is modelled at the granularity the extractor inspects:
the sections carrying a `data-gr-title` attribute (in document order), each
with its title value and its descendant tables; each table with its class
list, its `thead` cell texts (if a `thead` exists) and its `tbody` row cell
texts (if a `tbody` exists). -/

/-- A `<table>` as seen by the extractor. -/
structure HtmlTable where
  classes : List String
  theadCells : Option (List String)
  tbodyRows : Option (List (List String))
deriving DecidableEq

/-- A `<section data-gr-title=...>` as seen by the extractor. -/
structure HtmlSection where
  title : String
  tables : List HtmlTable
deriving DecidableEq

/-- The parsed document: its attributed sections in document order. -/
structure HtmlDoc where
  sections : List HtmlSection
deriving DecidableEq

/-- The extracted `(headers, raw_rows)` pair. -/
structure PriceTable where
  headers : List String
  rows : List (List String)
deriving DecidableEq

/-- The distinct `RuntimeError` conditions of the parse block
(bot.py 386-416). -/
inductive ExtractError where
  | noSection : ExtractError
  | noTable : ExtractError
  | malformedTable : ExtractError
  | noHeaders : ExtractError
  | noDataRows : ExtractError
deriving DecidableEq

/-- The exact message carried by each `RuntimeError` (bot.py 387-416). -/
def extractErrorMsg (info : MetalSpec) : ExtractError → String
  | .noSection =>
    ("Could not locate the ") ++ info.label
      ++ (" price section. The website layout may have changed.")
  | .noTable =>
    ("Could not find the price table for ") ++ info.label
      ++ (". The website layout may have changed.")
  | .malformedTable => "Malformed table structure on the source website."
  | .noHeaders => "Could not read table headers."
  | .noDataRows => "No data rows found in the table."

/-- Case-insensitive substring test; models Python
`keyword.lower() in title.lower()`. -/
def containsSub (hay needle : String) : Bool :=
  decide (needle.data <:+: hay.data)

/-- The section-selection loop (bot.py 379-384): first section whose
`data-gr-title` contains the metal's section keyword, case-insensitively. -/
def findSection (doc : HtmlDoc) (keyword : String) : Option HtmlSection :=
  doc.sections.find? (fun sec => containsSub (pyLower sec.title) (pyLower keyword))

/-- `section.find("table", {"class": "table-conatiner"})` (bot.py 393):
first table whose class list carries the (source-site typo) marker class. -/
def findTable (sec : HtmlSection) : Option HtmlTable :=
  sec.tables.find? (fun t => t.classes.contains ("table-conatiner"))

/-- The extraction pipeline of the parse block (bot.py 374-416), from the
located section down to the filtered data rows. -/
def extractTable (info : MetalSpec) (doc : HtmlDoc) : Except ExtractError PriceTable :=
  match findSection doc info.section_keyword with
  | none => .error .noSection
  | some sec =>
    match findTable sec with
    | none => .error .noTable
    | some t =>
      match t.theadCells, t.tbodyRows with
      | none, _ => .error .malformedTable
      | some _, none => .error .malformedTable
      | some headers, some body =>
        if headers.isEmpty then .error .noHeaders
        else
          let raw_rows := body.filter (fun cells => cells.length == headers.length)
          if raw_rows.isEmpty then .error .noDataRows
          else .ok ⟨headers, raw_rows⟩

/-! ### Fetch orchestrator -/

/-- Outcome of the `scraper.get(url, timeout=15)` call: either the raised
network exception, or a response with a status code and (parsed) body. -/
inductive FetchOutcome where
  | netError : FetchOutcome
  | response (status : Nat) (doc : HtmlDoc) : FetchOutcome
deriving DecidableEq

/-- Ambient inputs of one `get_metal_prices` call: the network outcome that
a fetch would observe, `time.time()`, and the formatted wall-clock string
`datetime.now().strftime(...)`. -/
structure FetchEnv where
  outcome : FetchOutcome
  now : Int
  nowStr : String
deriving DecidableEq

/-- Observable result of a successful `get_metal_prices` call: the returned
message, the cache state after the call, and whether a network fetch was
performed. -/
structure GetResult where
  message : String
  cache : Cache
  fetched : Bool
deriving DecidableEq

/-- The source-page URL (bot.py 348). -/
def sourceUrl (slug city : String) : String :=
  ("https://www.goodreturns.in/") ++ slug ++ ("/") ++ city ++ (".html")

/-- Fallback on a network exception (bot.py 359-363). -/
def netErrorMsg (info : MetalSpec) (cityName url : String) : String :=
  ("⚠️ <b>Network error fetching " ++ info.label
      ++ " prices.</b>\n\n🔗 Check manually: <a href=\x27")
    ++ url ++
  ("\x27>" ++ cityName ++ " " ++ info.label
      ++ " Prices</a>\n<i>Please try again in a few minutes.</i>")

/-- Fallback on a non-200 HTTP status (bot.py 367-371). -/
def httpErrorMsg (status : Nat) (info : MetalSpec) (cityName url : String) : String :=
  ("⚠️ <b>Source website returned HTTP " ++ toString status
      ++ ".</b>\n\n🔗 Check manually: <a href=\x27")
    ++ url ++
  ("\x27>" ++ cityName ++ " " ++ info.label
      ++ " Prices</a>\n<i>Please try again in a few minutes.</i>")

/-- Fallback on a structural parse failure (bot.py 442-446); `reason` is the
`RuntimeError` text. -/
def parseErrorMsg (info : MetalSpec) (cityName url reason : String) : String :=
  ("⚠️ <b>Could not parse " ++ info.label ++ " prices.</b>\n<i>" ++ reason
      ++ "</i>\n\n🔗 Check manually: <a href=\x27")
    ++ url ++
  ("\x27>" ++ cityName ++ " " ++ info.label ++ " Prices</a>")

/-- The templated success message (bot.py 429-434). -/
def successMsg (info : MetalSpec) (cityName url nowStr tableStr : String) : String :=
  info.emoji ++ " <b>Today\x27s " ++ info.label ++ " Prices in " ++ cityName
    ++ "</b> " ++ info.emoji ++ "\n\n<pre><code>" ++ tableStr
    ++ "</code></pre>\n\n<i>🕐 Fetched at: " ++ nowStr
    ++ "</i>\n<i>📊 Source: <a href=\"" ++ url ++ "\">GoodReturns.in</a></i>"

/-- True when the fetch cannot produce a rendered table: network exception,
non-200 status, or structural parse failure. -/
def fetchFailed (info : MetalSpec) (o : FetchOutcome) : Bool :=
  match o with
  | .netError => true
  | .response status doc =>
    status != 200 ||
      (match extractTable info doc with
       | .error _ => true
       | .ok _ => false)

/-- The fetch-and-render path of `get_metal_prices` (bot.py 346-452), taken
once validation passed and the cache had no valid entry.  Every branch
returns normally: failures are recovered into fallback messages. -/
def gmpFetch (metal city : String) (info : MetalSpec) (cityName : String)
    (env : FetchEnv) (cache : Cache) : GetResult :=
  let url := sourceUrl info.url_slug city
  match env.outcome with
  | .netError => ⟨netErrorMsg info cityName url, cache, true⟩
  | .response status doc =>
    if status != 200 then ⟨httpErrorMsg status info cityName url, cache, true⟩
    else
      match extractTable info doc with
      | .error e => ⟨parseErrorMsg info cityName url (extractErrorMsg info e), cache, true⟩
      | .ok pt =>
        let firstRow := pt.rows.headD []
        let current_price : Option ℚ :=
          if 1 < firstRow.length then _parse_price_from_cell (firstRow.getD 1 "")
          else none
        let message := successMsg info cityName url env.nowStr
          (_build_table_str pt.headers pt.rows)
        ⟨message, _set_cache env.now cache metal city message (current_price.getD 0), true⟩

/-- `get_metal_prices` after the two lower-casing assignments (bot.py
332-452): static validation, then cache consultation, then the fetch path.
`.error` carries the `ValueError` message. -/
def gmpValidated (metal city : String) (force_refresh : Bool)
    (env : FetchEnv) (cache : Cache) : Except String GetResult :=
  match metalSpec? metal with
  | none => .error (("Unsupported metal \x27") ++ metal ++ ("\x27. Use: gold, silver"))
  | some info =>
    match cityName? city with
    | none => .error (("Unsupported city \x27") ++ city
        ++ ("\x27.\nUse /cities to see the full list."))
    | some cityName =>
      match (if force_refresh then none else _get_cached env.now cache metal city) with
      | some entry => .ok ⟨entry.data, cache, false⟩
      | none => .ok (gmpFetch metal city info cityName env cache)

/-- The `ValueError` message for an unsupported metal (bot.py 333). -/
def unsupportedMetalMsg (metal : String) : String :=
  ("Unsupported metal \x27") ++ metal ++ ("\x27. Use: gold, silver")

/-- The `ValueError` message for an unsupported city (bot.py 335-337). -/
def unsupportedCityMsg (city : String) : String :=
  ("Unsupported city \x27") ++ city ++ ("\x27.\nUse /cities to see the full list.")

/-- `get_metal_prices` (bot.py 323-452): both identifier arguments are
lower-cased first. -/
def get_metal_prices (metal city : String) (force_refresh : Bool)
    (env : FetchEnv) (cache : Cache) : Except String GetResult :=
  gmpValidated (pyLower metal) (pyLower city) force_refresh env cache

/-! ### Alert evaluator -/

/-- One row of the external `alerts` table (consumed read-only). -/
structure Alert where
  chat_id : Int
  metal : String
  city : String
  threshold : ℚ
deriving DecidableEq

/-- The per-group body of `job_check_alerts` (bot.py 736-757): given the
resolved current price for the group's `(metal, city)` key, the group is
skipped when the price is absent or non-positive, and otherwise exactly the
alerts whose threshold strictly exceeds the price fire. -/
def groupFired (current_price : Option ℚ) (group_alerts : List Alert) : List Alert :=
  match current_price with
  | none => []
  | some p =>
    if p ≤ 0 then []
    else group_alerts.filter (fun a => decide (p < a.threshold))

/-! ### Named failure conditions of the extractor (read off `extractTable`) -/

/-- No section whose `data-gr-title` contains the section keyword exists. -/
def condNoSection (info : MetalSpec) (doc : HtmlDoc) : Prop :=
  findSection doc info.section_keyword = none

/-- The matched section has no table with the marker class. -/
def condNoTable (info : MetalSpec) (doc : HtmlDoc) : Prop :=
  ∃ sec, findSection doc info.section_keyword = some sec ∧ findTable sec = none

/-- The matched table lacks a `thead` or a `tbody`. -/
def condMalformed (info : MetalSpec) (doc : HtmlDoc) : Prop :=
  ∃ sec t, findSection doc info.section_keyword = some sec ∧ findTable sec = some t
    ∧ (t.theadCells = none ∨ t.tbodyRows = none)

/-- The `thead` yields zero header cells. -/
def condNoHeaders (info : MetalSpec) (doc : HtmlDoc) : Prop :=
  ∃ sec t body, findSection doc info.section_keyword = some sec ∧ findTable sec = some t
    ∧ t.theadCells = some [] ∧ t.tbodyRows = some body

/-- After dropping rows whose cell count differs from the header count, no
data row remains. -/
def condNoDataRows (info : MetalSpec) (doc : HtmlDoc) : Prop :=
  ∃ sec t headers body, findSection doc info.section_keyword = some sec
    ∧ findTable sec = some t ∧ t.theadCells = some headers ∧ headers ≠ []
    ∧ t.tbodyRows = some body
    ∧ body.filter (fun cells => cells.length == headers.length) = []

/-! ### Concrete instances used by the witness theorems -/

/-- A fetch environment whose network call raises. -/
def envW : FetchEnv := ⟨.netError, 100, "12 Oct 2025, 10:00 AM IST"⟩

/-- A cache entry stamped at time 0. -/
def entryW : CacheEntry := ⟨"cached-message", 0, 6000⟩

/-- A cache holding `entryW` under the gold/bangalore key. -/
def cacheW : Cache := [(("gold", "bangalore"), entryW)]

/-- A document with no sections at all. -/
def docW : HtmlDoc := ⟨[]⟩

/-- An alert at threshold 6500 (the worked example of the spec). -/
def alertW : Alert := ⟨1, "gold", "bangalore", 6500⟩

/-! ### Helper lemmas -/

theorem strDataAppend (a b : String) : (a ++ b).data = a.data ++ b.data := by
  cases a
  cases b
  rfl

theorem foldl_width_eq (l : List Char) (n : Nat) :
    l.foldl (fun w c => w + charWidth c) n = n + (l.map charWidth).sum := by
  induction l generalizing n with
  | nil => simp
  | cons c t ih => simp [List.foldl_cons, ih]; omega

theorem displayLen_eq_sum (s : String) :
    _display_len s = (s.data.map charWidth).sum := by
  unfold _display_len
  rw [foldl_width_eq]
  omega

theorem displayLen_append (a b : String) :
    _display_len (a ++ b) = _display_len a + _display_len b := by
  simp [displayLen_eq_sum, strDataAppend]

theorem displayLen_strRepl (c : Char) (n : Nat) :
    _display_len (strRepl c n) = n * charWidth c := by
  show (List.replicate n c).foldl (fun w c => w + charWidth c) 0
      = n * charWidth c
  rw [foldl_width_eq, List.map_replicate, List.sum_replicate]
  simp [smul_eq_mul]

theorem charWidth_space : charWidth ' ' = 1 := by decide

theorem charWidth_dash : charWidth '-' = 1 := by decide

theorem dl_pad_right (s : String) (w : Nat) (h : _display_len s ≤ w) :
    _display_len (_pad_right s w) = w := by
  unfold _pad_right
  rw [displayLen_append, displayLen_strRepl, charWidth_space]
  omega

theorem dl_pad_center (s : String) (w : Nat) (h : _display_len s ≤ w) :
    _display_len (_pad_center s w) = w := by
  unfold _pad_center
  rw [displayLen_append, displayLen_append, displayLen_strRepl,
    displayLen_strRepl, charWidth_space]
  omega

theorem dl_joinSep (sep : String) :
    ∀ xs : List String, xs ≠ [] →
      _display_len (joinSep sep xs)
        = (xs.map _display_len).sum + _display_len sep * (xs.length - 1)
  | [], h => absurd rfl h
  | [x], _ => by simp [joinSep]
  | x :: y :: ys, _ => by
    have ih := dl_joinSep sep (y :: ys) (by simp)
    show _display_len (x ++ sep ++ joinSep sep (y :: ys)) = _
    rw [displayLen_append, displayLen_append, ih]
    simp [List.length_cons, Nat.mul_succ]
    omega

theorem le_foldl_max_init (l : List Nat) (init : Nat) : init ≤ l.foldl max init := by
  induction l generalizing init with
  | nil => exact le_refl _
  | cons a t ih => exact le_trans (le_max_left _ _) (ih (max init a))

theorem le_foldl_max (l : List Nat) (a : Nat) (h : a ∈ l) :
    ∀ init : Nat, a ≤ l.foldl max init := by
  induction l with
  | nil => cases h
  | cons b t ih =>
    intro init
    rcases List.mem_cons.mp h with rfl | h'
    · exact le_trans (le_max_right init a) (le_foldl_max_init t (max init a))
    · exact ih h' (max init b)

theorem injectChangeRow_length (row : List String) :
    (injectChangeRow row).length = row.length := by
  unfold injectChangeRow
  split
  · simp
  · rfl

theorem tableColumnWidths_getD (headers : List String) (rows : List (List String))
    (i : Nat) (h : i < headers.length) :
    (tableColumnWidths headers rows).getD i 0 = colWidth headers (injectAll rows) i := by
  simp [tableColumnWidths, List.getD_eq_getElem?_getD, List.getElem?_map,
    List.getElem?_range, h]

theorem dl_header_le (headers : List String) (rows : List (List String)) (i : Nat) :
    _display_len (headers.getD i "") ≤ colWidth headers rows i :=
  le_max_left _ _

theorem dl_cell_le (headers : List String) (rows : List (List String))
    (r : List String) (hr : r ∈ rows) (i : Nat) :
    _display_len (r.getD i "") ≤ colWidth headers rows i :=
  le_trans
    (le_foldl_max _ _ (List.mem_map_of_mem (fun row => _display_len (row.getD i "")) hr) 0)
    (le_max_right _ _)

theorem range_map_ne_nil (n : Nat) (hn : n ≠ 0) (f : Nat → String) :
    (List.range n).map f ≠ [] := by
  simp [List.map_eq_nil_iff, List.range_eq_nil]
  omega

theorem dl_tableHeaderRow (headers : List String) (rows : List (List String))
    (hh : headers ≠ []) :
    _display_len (tableHeaderRow headers rows) = tableTotalWidth headers rows := by
  have hn : headers.length ≠ 0 := by
    simpa [List.length_eq_zero] using hh
  unfold tableHeaderRow tableTotalWidth
  rw [dl_joinSep _ _ (range_map_ne_nil _ hn _)]
  have hmap : ((List.range headers.length).map
        (fun i => _pad_center (headers.getD i "")
          ((tableColumnWidths headers rows).getD i 0))).map _display_len
      = (List.range headers.length).map (colWidth headers (injectAll rows)) := by
    rw [List.map_map]
    apply List.map_congr_left
    intro i hi
    have hi' : i < headers.length := List.mem_range.mp hi
    simp only [Function.comp]
    rw [tableColumnWidths_getD headers rows i hi']
    exact dl_pad_center _ _ (dl_header_le headers (injectAll rows) i)
  rw [hmap]
  have hdl : _display_len " | " = 3 := by decide
  simp [hdl, tableColumnWidths]

theorem dl_tableSeparator (headers : List String) (rows : List (List String))
    (hh : headers ≠ []) :
    _display_len (tableSeparator headers rows) = tableTotalWidth headers rows := by
  have hn : headers.length ≠ 0 := by
    simpa [List.length_eq_zero] using hh
  unfold tableSeparator tableTotalWidth
  have hne : (tableColumnWidths headers rows).map (fun w => strRepl '-' w) ≠ [] := by
    intro hcontra
    rw [List.map_eq_nil_iff] at hcontra
    have hlen := congrArg List.length hcontra
    simp [tableColumnWidths] at hlen
    exact hh hlen
  rw [dl_joinSep _ _ hne]
  have hmap : ((tableColumnWidths headers rows).map (fun w => strRepl '-' w)).map _display_len
      = tableColumnWidths headers rows := by
    rw [List.map_map]
    have hfun : (_display_len ∘ fun w => strRepl '-' w) = fun w => w := by
      funext w
      simp [Function.comp, displayLen_strRepl, charWidth_dash]
    simp [hfun]
  rw [hmap]
  have hdl : _display_len "-+-" = 3 := by decide
  simp [hdl, tableColumnWidths]

theorem dl_tableDataRow (headers : List String) (rows : List (List String))
    (r : List String) (hh : headers ≠ []) (hr : r ∈ injectAll rows) :
    _display_len (tableDataRow headers rows r) = tableTotalWidth headers rows := by
  have hn : headers.length ≠ 0 := by
    simpa [List.length_eq_zero] using hh
  unfold tableDataRow tableTotalWidth
  rw [dl_joinSep _ _ (range_map_ne_nil _ hn _)]
  have hmap : ((List.range headers.length).map
        (fun i => _pad_right (r.getD i "")
          ((tableColumnWidths headers rows).getD i 0))).map _display_len
      = (List.range headers.length).map (colWidth headers (injectAll rows)) := by
    rw [List.map_map]
    apply List.map_congr_left
    intro i hi
    have hi' : i < headers.length := List.mem_range.mp hi
    simp only [Function.comp]
    rw [tableColumnWidths_getD headers rows i hi']
    exact dl_pad_right _ _ (dl_cell_le headers (injectAll rows) r hr i)
  rw [hmap]
  have hdl : _display_len " | " = 3 := by decide
  simp [hdl, tableColumnWidths]

theorem containsSub_mid (a u b : String) : containsSub (a ++ u ++ b) u = true := by
  unfold containsSub
  rw [decide_eq_true_eq]
  exact ⟨a.data, b.data, by simp [strDataAppend]⟩

theorem extract_noSection_iff (info : MetalSpec) (doc : HtmlDoc) :
    extractTable info doc = .error .noSection ↔ condNoSection info doc := by
  unfold extractTable condNoSection
  repeat' split
  all_goals simp_all
  all_goals (split <;> simp_all)

theorem extract_noTable_iff (info : MetalSpec) (doc : HtmlDoc) :
    extractTable info doc = .error .noTable ↔ condNoTable info doc := by
  unfold extractTable condNoTable
  repeat' split
  all_goals simp_all
  all_goals (split <;> simp_all)

theorem extract_malformed_iff (info : MetalSpec) (doc : HtmlDoc) :
    extractTable info doc = .error .malformedTable ↔ condMalformed info doc := by
  unfold extractTable condMalformed
  repeat' split
  all_goals simp_all
  all_goals (split <;> simp_all)

theorem extract_noHeaders_iff (info : MetalSpec) (doc : HtmlDoc) :
    extractTable info doc = .error .noHeaders ↔ condNoHeaders info doc := by
  unfold extractTable condNoHeaders
  repeat' split
  all_goals simp_all
  all_goals (split <;> simp_all)

theorem extract_noDataRows_iff (info : MetalSpec) (doc : HtmlDoc) :
    extractTable info doc = .error .noDataRows ↔ condNoDataRows info doc := by
  unfold extractTable condNoDataRows
  repeat' split
  all_goals simp_all

theorem gmpFetch_fetched (metal city : String) (info : MetalSpec) (cityName : String)
    (env : FetchEnv) (cache : Cache) :
    (gmpFetch metal city info cityName env cache).fetched = true := by
  obtain ⟨outcome, now, nowStr⟩ := env
  cases outcome with
  | netError => rfl
  | response status doc =>
    unfold gmpFetch
    simp only
    split
    · rfl
    · cases h : extractTable info doc with
      | error e => simp [h]
      | ok pt => simp [h]

theorem gmpFetch_fail (metal city : String) (info : MetalSpec) (cityName : String)
    (env : FetchEnv) (cache : Cache)
    (hf : fetchFailed info env.outcome = true) :
    containsSub (gmpFetch metal city info cityName env cache).message
      (sourceUrl info.url_slug city) = true := by
  obtain ⟨outcome, now, nowStr⟩ := env
  cases outcome with
  | netError =>
    show containsSub (netErrorMsg info cityName (sourceUrl info.url_slug city)) _ = true
    unfold netErrorMsg
    exact containsSub_mid _ _ _
  | response status doc =>
    unfold fetchFailed at hf
    unfold gmpFetch
    simp only
    split
    · unfold httpErrorMsg
      exact containsSub_mid _ _ _
    · cases h : extractTable info doc with
      | error e =>
        simp only [h]
        unfold parseErrorMsg
        exact containsSub_mid _ _ _
      | ok pt =>
        simp_all

theorem gmpValidated_ok (metal city : String) (force : Bool) (env : FetchEnv)
    (cache : Cache) (info : MetalSpec) (hm : metalSpec? metal = some info)
    (nm : String) (hc : cityName? city = some nm) :
    ∃ r, gmpValidated metal city force env cache = .ok r := by
  unfold gmpValidated
  repeat' split
  all_goals simp_all

theorem gmp_cache_hit (metal city : String) (env : FetchEnv) (cache : Cache)
    (info : MetalSpec) (nm : String) (entry : CacheEntry)
    (hm : metalSpec? (pyLower metal) = some info)
    (hc : cityName? (pyLower city) = some nm)
    (hcache : _get_cached env.now cache (pyLower metal) (pyLower city) = some entry) :
    get_metal_prices metal city false env cache = .ok ⟨entry.data, cache, false⟩ := by
  unfold get_metal_prices gmpValidated
  simp [hm, hc, hcache]

theorem gmp_error_metal (metal city : String) (force : Bool) (env : FetchEnv)
    (cache : Cache) (hm : metalSpec? (pyLower metal) = none) :
    get_metal_prices metal city force env cache
      = .error (unsupportedMetalMsg (pyLower metal)) := by
  unfold get_metal_prices gmpValidated unsupportedMetalMsg
  simp [hm]

theorem gmp_error_city (metal city : String) (force : Bool) (env : FetchEnv)
    (cache : Cache) (info : MetalSpec)
    (hm : metalSpec? (pyLower metal) = some info)
    (hc : cityName? (pyLower city) = none) :
    get_metal_prices metal city force env cache
      = .error (unsupportedCityMsg (pyLower city)) := by
  unfold get_metal_prices gmpValidated unsupportedCityMsg
  simp [hm, hc]

theorem gmp_error_iff (metal city : String) (force : Bool) (env : FetchEnv)
    (cache : Cache) :
    (∃ e, get_metal_prices metal city force env cache = .error e)
      ↔ (metalSpec? (pyLower metal) = none ∨ cityName? (pyLower city) = none) := by
  unfold get_metal_prices gmpValidated
  cases hm : metalSpec? (pyLower metal) with
  | none => simp [hm]
  | some info =>
    cases hc : cityName? (pyLower city) with
    | none => simp [hc]
    | some nm =>
      simp only [hc]
      constructor
      · rintro ⟨e, he⟩
        split at he <;> cases he
      · rintro (h | h) <;> cases h

/-! ### Claim theorems -/

/-- C9: display width is additive under concatenation
(`_display_len (a ++ b) = _display_len a + _display_len b`), and it is a
total deterministic non-negative function in which every code point
contributes exactly 1 or 2 — 2 inside the fixed wide ranges, 1 outside. -/
theorem c9_display_width_additive :
    (∀ a b : String, _display_len (a ++ b) = _display_len a + _display_len b)
    ∧ (∀ c : Char, charWidth c = if isWideCp c.toNat then 2 else 1)
    ∧ (∀ c : Char, charWidth c = 1 ∨ charWidth c = 2)
    ∧ (∀ s : String, 0 ≤ _display_len s) := by
  refine ⟨displayLen_append, fun c => rfl, fun c => ?_, fun s => Nat.zero_le _⟩
  unfold charWidth
  split
  · exact Or.inr rfl
  · exact Or.inl rfl

/-- C6: the price-cell parser strips the rupee glyph and thousands
separators, takes the first whitespace token and attempts a numeric parse,
returning `none` (absent) rather than an error on empty or non-numeric
input: `"₹6,123" ↦ 6123`, `"1,00,000" ↦ 100000`, `"N/A" ↦ none`,
`"" ↦ none`; the last conjunct records the strip/token/parse pipeline. -/
theorem c6_price_cell_examples :
    _parse_price_from_cell "₹6,123" = some 6123
    ∧ _parse_price_from_cell "1,00,000" = some 100000
    ∧ _parse_price_from_cell "N/A" = none
    ∧ _parse_price_from_cell "" = none
    ∧ (∀ text : String, _parse_price_from_cell text
        = pyFloat? ⟨firstTokenChars (pyStrip (removeAllChar ',' (removeAllChar '₹' text))).data⟩) := by
  exact ⟨by decide, by decide, by decide, by decide, fun text => rfl⟩

/-- C7: for a row with at least 4 cells the renderer prepends to the cell
at index 3 the down glyph when the text starts with an ASCII hyphen or the
Unicode minus and the up glyph otherwise (`"-10"` and `"−10"` are down,
`"10-gram"` is up); rows with fewer than 4 cells are left unchanged. -/
theorem c7_change_glyph_injection :
    (∀ (a b c d : String) (rest : List String),
        injectChangeRow (a :: b :: c :: d :: rest)
          = a :: b :: c :: (changeGlyph d ++ " " ++ d) :: rest)
    ∧ (∀ row : List String, row.length < 4 → injectChangeRow row = row)
    ∧ changeGlyph "-10" = "🔴"
    ∧ changeGlyph "−10" = "🔴"
    ∧ changeGlyph "10-gram" = "🟢" := by
  refine ⟨?_, ?_, by decide, by decide, by decide⟩
  · intro a b c d rest
    unfold injectChangeRow
    rw [if_pos (by simp)]
    rfl
  · intro row h
    unfold injectChangeRow
    rw [if_neg (by omega)]

/-- C7 witness: a one-cell row passes through the glyph-injection step
untouched. -/
theorem c7_change_glyph_injection_witness :
    injectChangeRow ["22K"] = ["22K"] :=
  c7_change_glyph_injection.2.1 ["22K"] (by decide)

/-- C4: in the alert evaluator a group with resolved price `p` fires an
alert exactly when `0 < p` and `p < threshold` (strict; equality never
fires), and a group with an absent or non-positive price is skipped whole;
includes the spec's worked example at threshold 6500. -/
theorem c4_alert_strict_threshold :
    (∀ (price : Option ℚ) (group_alerts : List Alert) (a : Alert),
        a ∈ groupFired price group_alerts
          ↔ a ∈ group_alerts ∧ ∃ p, price = some p ∧ 0 < p ∧ p < a.threshold)
    ∧ (∀ g : List Alert, groupFired none g = [])
    ∧ (∀ g : List Alert, groupFired (some 0) g = [])
    ∧ groupFired (some 6000) [alertW] = [alertW]
    ∧ groupFired (some 6500) [alertW] = []
    ∧ groupFired (some 7000) [alertW] = [] := by
  refine ⟨?_, fun g => rfl, fun g => ?_, by decide, by decide, by decide⟩
  · intro price g a
    cases price with
    | none => simp [groupFired]
    | some p =>
      by_cases hp : p ≤ 0
      · simp only [groupFired, if_pos hp]
        simp only [List.not_mem_nil, false_iff]
        rintro ⟨-, p', hp', h0, -⟩
        rw [Option.some_inj] at hp'
        subst hp'
        exact absurd h0 (not_lt.mpr hp)
      · simp only [groupFired, if_neg hp, List.mem_filter, decide_eq_true_eq]
        constructor
        · rintro ⟨hmem, hlt⟩
          exact ⟨hmem, p, rfl, lt_of_not_le hp, hlt⟩
        · rintro ⟨hmem, p', hp', -, hlt⟩
          rw [Option.some_inj] at hp'
          subst hp'
          exact ⟨hmem, hlt⟩
  · simp [groupFired]

/-- C1: for non-empty headers and non-empty rows in which every row has
exactly as many cells as there are headers, every line the table renderer
produces — the header line, the separator line and every data line — has
the same display width (measured by `_display_len` after the change-column
glyph injection). -/
theorem c1_table_lines_uniform_width :
    ∀ (headers : List String) (rows : List (List String)),
      headers ≠ [] → rows ≠ [] →
      (∀ r ∈ rows, r.length = headers.length) →
      ∀ line ∈ _build_table_lines headers rows,
        _display_len line = tableTotalWidth headers rows := by
  intro headers rows hh hr hlen line hline
  unfold _build_table_lines at hline
  rcases List.mem_cons.mp hline with rfl | hline
  · exact dl_tableHeaderRow headers rows hh
  rcases List.mem_cons.mp hline with rfl | hline
  · exact dl_tableSeparator headers rows hh
  obtain ⟨r, hrmem, rfl⟩ := List.mem_map.mp hline
  exact dl_tableDataRow headers rows r hh hrmem

/-- C1 witness: in a concrete two-column table the header line has the
common width. -/
theorem c1_table_lines_uniform_width_witness :
    _display_len ((_build_table_lines ["Type", "Price"] [["22K", "₹6,000"]]).getD 0 "")
      = tableTotalWidth ["Type", "Price"] [["22K", "₹6,000"]] :=
  c1_table_lines_uniform_width ["Type", "Price"] [["22K", "₹6,000"]]
    (by decide) (by decide) (by decide) _ (by decide)

/-- C8: a cache entry stamped at time `T` is returned by a read at time `t`
exactly when `t - T < CACHE_TTL` (strict): a read at `T + TTL + 1` sees it
as absent, a read at `T + TTL - 1` sees it as valid, and an expired entry
is treated as absent while still physically present in the cache. -/
theorem c8_cache_ttl_strict :
    ∀ (cache : Cache) (metal city : String) (now : Int) (entry : CacheEntry),
      cacheFind cache (_cache_key metal city) = some entry →
      ((_get_cached now cache metal city = some entry
          ↔ now - entry.timestamp < CACHE_TTL)
       ∧ _get_cached (entry.timestamp + CACHE_TTL + 1) cache metal city = none
       ∧ _get_cached (entry.timestamp + CACHE_TTL - 1) cache metal city = some entry
       ∧ (¬ now - entry.timestamp < CACHE_TTL →
            _get_cached now cache metal city = none
              ∧ cacheFind cache (_cache_key metal city) = some entry)) := by
  intro cache metal city now entry h
  unfold _get_cached
  simp only [h]
  refine ⟨⟨?_, ?_⟩, ?_, ?_, ?_⟩
  · intro he
    by_contra hlt
    rw [if_neg hlt] at he
    cases he
  · intro hlt
    rw [if_pos hlt]
  · rw [if_neg (by simp only [CACHE_TTL]; omega)]
  · rw [if_pos (by simp only [CACHE_TTL]; omega)]
  · intro hlt
    rw [if_neg hlt]
    exact ⟨rfl, trivial⟩

/-- C8 witness: the concrete entry stamped at time 0 is valid at time 100,
absent at `TTL + 1`, and valid again at `TTL - 1`. -/
theorem c8_cache_ttl_strict_witness :
    (_get_cached 100 cacheW "gold" "bangalore" = some entryW
        ↔ (100 : Int) - entryW.timestamp < CACHE_TTL)
    ∧ _get_cached (entryW.timestamp + CACHE_TTL + 1) cacheW "gold" "bangalore" = none
    ∧ _get_cached (entryW.timestamp + CACHE_TTL - 1) cacheW "gold" "bangalore" = some entryW := by
  have h := c8_cache_ttl_strict cacheW "gold" "bangalore" 100 entryW (by decide)
  exact ⟨h.1, h.2.1, h.2.2.1⟩

/-- C5: the extractor fails with a structure error exactly when no matching
section exists, the section has no marker-class table, the table lacks a
head or body, the head yields zero header cells, or no data row survives
the cell-count filter — with a distinct reason string for each failure. -/
theorem c5_extractor_structure_errors :
    ∀ (info : MetalSpec) (doc : HtmlDoc),
      ((∃ e, extractTable info doc = .error e)
        ↔ (condNoSection info doc ∨ condNoTable info doc ∨ condMalformed info doc
            ∨ condNoHeaders info doc ∨ condNoDataRows info doc))
      ∧ (extractTable info doc = .error .noSection ↔ condNoSection info doc)
      ∧ (extractTable info doc = .error .noTable ↔ condNoTable info doc)
      ∧ (extractTable info doc = .error .malformedTable ↔ condMalformed info doc)
      ∧ (extractTable info doc = .error .noHeaders ↔ condNoHeaders info doc)
      ∧ (extractTable info doc = .error .noDataRows ↔ condNoDataRows info doc)
      ∧ (∀ name spec, (name, spec) ∈ METALS →
          List.Pairwise (fun a b => a ≠ b)
            ([ExtractError.noSection, ExtractError.noTable, ExtractError.malformedTable,
              ExtractError.noHeaders, ExtractError.noDataRows].map (extractErrorMsg spec))) := by
  intro info doc
  refine ⟨?_, extract_noSection_iff info doc, extract_noTable_iff info doc,
    extract_malformed_iff info doc, extract_noHeaders_iff info doc,
    extract_noDataRows_iff info doc, ?_⟩
  · constructor
    · rintro ⟨e, he⟩
      cases e
      · exact Or.inl ((extract_noSection_iff info doc).mp he)
      · exact Or.inr (Or.inl ((extract_noTable_iff info doc).mp he))
      · exact Or.inr (Or.inr (Or.inl ((extract_malformed_iff info doc).mp he)))
      · exact Or.inr (Or.inr (Or.inr (Or.inl ((extract_noHeaders_iff info doc).mp he))))
      · exact Or.inr (Or.inr (Or.inr (Or.inr ((extract_noDataRows_iff info doc).mp he))))
    · rintro (h | h | h | h | h)
      · exact ⟨_, (extract_noSection_iff info doc).mpr h⟩
      · exact ⟨_, (extract_noTable_iff info doc).mpr h⟩
      · exact ⟨_, (extract_malformed_iff info doc).mpr h⟩
      · exact ⟨_, (extract_noHeaders_iff info doc).mpr h⟩
      · exact ⟨_, (extract_noDataRows_iff info doc).mpr h⟩
  · intro name spec hmem
    simp only [METALS, List.mem_cons, List.not_mem_nil, or_false, Prod.mk.injEq] at hmem
    rcases hmem with ⟨rfl, rfl⟩ | ⟨rfl, rfl⟩ <;> decide

/-- C5 witness: a document with no attributed sections fails with the
missing-section error, and the gold spec's five reason strings are
pairwise distinct. -/
theorem c5_extractor_structure_errors_witness :
    extractTable goldSpec docW = .error ExtractError.noSection
    ∧ List.Pairwise (fun a b => a ≠ b)
        ([ExtractError.noSection, ExtractError.noTable, ExtractError.malformedTable,
          ExtractError.noHeaders, ExtractError.noDataRows].map (extractErrorMsg goldSpec)) :=
  ⟨(c5_extractor_structure_errors goldSpec docW).2.1.mpr rfl,
   (c5_extractor_structure_errors goldSpec docW).2.2.2.2.2.2 "gold" goldSpec (by decide)⟩

/-- C2: for supported identifiers, when `force_refresh` is false and the
cache holds a valid entry for the key, `get_metal_prices` returns exactly
the cached message, leaves the cache unchanged, and performs no network
fetch. -/
theorem c2_cache_hit_returns_cached :
    ∀ (metal city : String) (env : FetchEnv) (cache : Cache)
      (info : MetalSpec) (nm : String) (entry : CacheEntry),
      metalSpec? (pyLower metal) = some info →
      cityName? (pyLower city) = some nm →
      _get_cached env.now cache (pyLower metal) (pyLower city) = some entry →
      get_metal_prices metal city false env cache
        = .ok ⟨entry.data, cache, false⟩ :=
  fun metal city env cache info nm entry hm hc hcache =>
    gmp_cache_hit metal city env cache info nm entry hm hc hcache

/-- C2 witness: with a fresh gold/bangalore entry and a failing network, the
call still returns the cached message with no fetch. -/
theorem c2_cache_hit_returns_cached_witness :
    get_metal_prices "gold" "bangalore" false envW cacheW
      = .ok ⟨entryW.data, cacheW, false⟩ :=
  c2_cache_hit_returns_cached "gold" "bangalore" envW cacheW goldSpec "Bangalore" entryW
    (by decide) (by decide) (by decide)

/-- C3: `get_metal_prices` raises exactly when the metal or city identifier
is unsupported (with a message naming the lower-cased identifier); every
fetch-path failure — network exception, non-200 status, or structural parse
failure — is returned as a normal string containing the source-page URL. -/
theorem c3_only_validation_raises :
    ∀ (metal city : String) (force : Bool) (env : FetchEnv) (cache : Cache),
      ((∃ e, get_metal_prices metal city force env cache = .error e)
        ↔ (metalSpec? (pyLower metal) = none ∨ cityName? (pyLower city) = none))
      ∧ (metalSpec? (pyLower metal) = none →
          get_metal_prices metal city force env cache
            = .error (unsupportedMetalMsg (pyLower metal)))
      ∧ (∀ info, metalSpec? (pyLower metal) = some info →
          cityName? (pyLower city) = none →
          get_metal_prices metal city force env cache
            = .error (unsupportedCityMsg (pyLower city)))
      ∧ containsSub (unsupportedMetalMsg (pyLower metal)) (pyLower metal) = true
      ∧ containsSub (unsupportedCityMsg (pyLower city)) (pyLower city) = true
      ∧ (∀ info, metalSpec? (pyLower metal) = some info →
          ∀ nm, cityName? (pyLower city) = some nm →
          (force = true ∨ _get_cached env.now cache (pyLower metal) (pyLower city) = none) →
          fetchFailed info env.outcome = true →
          ∃ r, get_metal_prices metal city force env cache = .ok r
            ∧ r.fetched = true
            ∧ containsSub r.message (sourceUrl info.url_slug (pyLower city)) = true) := by
  intro metal city force env cache
  refine ⟨gmp_error_iff metal city force env cache,
    gmp_error_metal metal city force env cache,
    fun info hm hc => gmp_error_city metal city force env cache info hm hc,
    ?_, ?_, ?_⟩
  · unfold unsupportedMetalMsg
    exact containsSub_mid _ _ _
  · unfold unsupportedCityMsg
    exact containsSub_mid _ _ _
  · intro info hm nm hc hfc hff
    have hnone : (if force then none
        else _get_cached env.now cache (pyLower metal) (pyLower city))
        = (none : Option CacheEntry) := by
      rcases hfc with rfl | hcnone
      · rw [if_pos rfl]
      · by_cases hf : force = true
        · rw [if_pos hf]
        · rw [if_neg hf]
          exact hcnone
    refine ⟨gmpFetch (pyLower metal) (pyLower city) info nm env cache, ?_,
      gmpFetch_fetched _ _ _ _ _ _, gmpFetch_fail _ _ _ _ _ _ hff⟩
    unfold get_metal_prices gmpValidated
    simp only [hm, hc, hnone]

/-- C3 witness: an unsupported metal raises the naming error, an unsupported
city raises the naming error, and a forced fetch against a failing network
returns a fallback message containing the source URL. -/
theorem c3_only_validation_raises_witness :
    get_metal_prices "copper" "bangalore" false envW []
      = .error (unsupportedMetalMsg (pyLower "copper"))
    ∧ get_metal_prices "gold" "atlantis" false envW []
      = .error (unsupportedCityMsg (pyLower "atlantis"))
    ∧ (∃ r, get_metal_prices "gold" "bangalore" true envW [] = .ok r
        ∧ r.fetched = true
        ∧ containsSub r.message (sourceUrl goldSpec.url_slug (pyLower "bangalore")) = true) :=
  ⟨(c3_only_validation_raises "copper" "bangalore" false envW []).2.1 (by decide),
   (c3_only_validation_raises "gold" "atlantis" false envW []).2.2.1 goldSpec
     (by decide) (by decide),
   (c3_only_validation_raises "gold" "bangalore" true envW []).2.2.2.2.2 goldSpec
     (by decide) "Bangalore" (by decide) (Or.inl rfl) (by decide)⟩

/-- C10: `get_metal_prices` is invariant under the letter case of its
identifier arguments — any case variants of a lower-case metal and city
behave identically — and the cache key lower-cases both identifiers; for
supported identifiers no validation error is raised. -/
theorem c10_case_insensitive :
    ∀ (M C m c : String) (force : Bool) (env : FetchEnv) (cache : Cache),
      pyLower M = m → pyLower C = c → pyLower m = m → pyLower c = c →
      (get_metal_prices M C force env cache = get_metal_prices m c force env cache)
      ∧ _cache_key M C = _cache_key m c
      ∧ (∀ info, metalSpec? m = some info → ∀ nm, cityName? c = some nm →
          ∃ r, get_metal_prices M C force env cache = .ok r) := by
  intro M C m c force env cache hM hC hm hc
  have hgmp : get_metal_prices M C force env cache
      = get_metal_prices m c force env cache := by
    unfold get_metal_prices
    rw [hM, hC, hm, hc]
  refine ⟨hgmp, ?_, ?_⟩
  · unfold _cache_key
    rw [hM, hC, hm, hc]
  · intro info hinfo nm hnm
    rw [hgmp]
    unfold get_metal_prices
    rw [hm, hc]
    exact gmpValidated_ok m c force env cache info hinfo nm hnm

/-- C10 witness: `"GOLD"`/`"Bangalore"` behave exactly like
`"gold"`/`"bangalore"`, key the same cache slot, and raise no error. -/
theorem c10_case_insensitive_witness :
    (get_metal_prices "GOLD" "Bangalore" false envW []
        = get_metal_prices "gold" "bangalore" false envW [])
    ∧ _cache_key "GOLD" "Bangalore" = _cache_key "gold" "bangalore"
    ∧ (∃ r, get_metal_prices "GOLD" "Bangalore" false envW [] = .ok r) := by
  have h := c10_case_insensitive "GOLD" "Bangalore" "gold" "bangalore" false envW []
    (by decide) (by decide) (by decide) (by decide)
  exact ⟨h.1, h.2.1, h.2.2 goldSpec (by decide) "Bangalore" (by decide)⟩
